import Mathlib

/-!
Shallow embedding of the order placement / fulfillment subsystem of the
e-commerce backend (orders.service.js, products service, SQL schema).
Quantities and money are modelled as rationals (the schema's NUMERIC
columns); statuses and reasons are the literal strings the code uses.
A Prisma `$transaction` is modelled by an `Except`-valued operation:
an `error` result corresponds to a rolled-back transaction, so the
pre-call state is unchanged.
-/

namespace Shop

/-- A row of the `products` table (the fields the order workflow reads). -/
structure Product where
  product_id : Nat
  name : String
  price : ℚ
  cost_price : ℚ
  sale_type : String
  stock_quantity : ℚ
  is_active : Bool
  deriving Repr, DecidableEq

/-- A row of the `stock_transactions` table. -/
structure StockTransaction where
  product_id : Nat
  quantity_change : ℚ
  reason : String
  related_order_id : Option Nat
  deriving Repr, DecidableEq

/-- A row of the `orders` table (fields used by the order workflow). -/
structure Order where
  order_id : Nat
  user_id : Option Nat
  guest_id : Option Nat
  status : String
  total_products_price : ℚ
  shipping_fees : ℚ
  discount_amount : ℚ
  final_total : ℚ
  shipping_city : String
  shipping_street : String
  shipping_building : String
  shipping_phone : String
  delivered_at : Bool
  deriving Repr, DecidableEq

/-- A row of the `order_items` table. -/
structure OrderItem where
  order_id : Nat
  product_id : Nat
  quantity : ℚ
  price_at_purchase : ℚ
  cost_price_at_purchase : ℚ
  deriving Repr, DecidableEq

/-- A row of the `payments` table. -/
structure Payment where
  order_id : Nat
  payment_method : String
  amount : ℚ
  status : String
  deriving Repr, DecidableEq

/-- A row of the `order_status_history` table. -/
structure StatusHistory where
  order_id : Nat
  old_status : Option String
  new_status : String
  deriving Repr, DecidableEq

/-- A row of the `carts` table. -/
structure Cart where
  cart_id : Nat
  user_id : Nat
  deriving Repr, DecidableEq

/-- A row of the `cart_items` table. -/
structure CartItem where
  cart_id : Nat
  product_id : Nat
  quantity : ℚ
  deriving Repr, DecidableEq

/-- The persisted store: the tables touched by the order workflow, plus
the identity counters that generate fresh order / product ids. -/
structure State where
  products : List Product
  categories : List Nat
  orders : List Order
  orderItems : List OrderItem
  stockTransactions : List StockTransaction
  payments : List Payment
  statusHistory : List StatusHistory
  carts : List Cart
  cartItems : List CartItem
  nextOrderId : Nat
  nextProductId : Nat
  deriving Repr, DecidableEq

/-- An entry of the `items` array passed to `placeOrder`. -/
structure RequestItem where
  product_id : Nat
  quantity : ℚ
  deriving Repr, DecidableEq

/-- The snapshot accumulated for one item in step 1 of `placeOrder`
(the `validatedItems` array of orders.service.js). -/
structure ValidatedItem where
  product_id : Nat
  name : String
  price : ℚ
  cost_price : ℚ
  quantity : ℚ
  subtotal : ℚ
  deriving Repr, DecidableEq

/-- The shipping fields of the `placeOrder` request. -/
structure Shipping where
  city : String
  street : String
  building : String
  phone : String
  deriving Repr, DecidableEq

/-- The object `placeOrder` returns on success. -/
structure OrderSummary where
  order_id : Nat
  status : String
  total_products_price : ℚ
  shipping_fees : ℚ
  discount_amount : ℚ
  final_total : ℚ
  items_count : Nat
  deriving Repr, DecidableEq

/-- `tx.product.findFirst({ where: { product_id, is_active: true } })`. -/
def findActiveProduct (s : State) (pid : Nat) : Option Product :=
  s.products.find? (fun p => p.product_id == pid && p.is_active)

/-- The insufficient-stock message of orders.service.js, naming the
offending product. -/
def insufficientMsg (p : Product) : String :=
  "Insufficient stock for " ++ p.name

/-- Step 1 of `placeOrder`: resolve each item against the current product
row, fail on a missing/inactive product or on `item.quantity > stock`,
and accumulate the snapshot rows and the running total. -/
def validateItems (s : State) : List RequestItem → Except String (List ValidatedItem × ℚ)
  | [] => .ok ([], 0)
  | item :: rest =>
    match findActiveProduct s item.product_id with
    | none => .error ("Product " ++ toString item.product_id ++ " not found or unavailable")
    | some product =>
      if product.stock_quantity < item.quantity then
        .error (insufficientMsg product)
      else
        match validateItems s rest with
        | .error e => .error e
        | .ok (vs, total) =>
          let subtotal := item.quantity * product.price
          .ok ({ product_id := product.product_id, name := product.name,
                 price := product.price, cost_price := product.cost_price,
                 quantity := item.quantity, subtotal := subtotal } :: vs,
               subtotal + total)

/-- `tx.product.update({ data: { stock_quantity: { increment: delta } } })`
on the row keyed by `pid` (ids are unique, so the map touches one row). -/
def bumpStock (ps : List Product) (pid : Nat) (delta : ℚ) : List Product :=
  ps.map fun p =>
    if p.product_id == pid then { p with stock_quantity := p.stock_quantity + delta } else p

/-- Steps 3-5 of `placeOrder` for each validated item: insert the
OrderItem with the step-1 snapshot, decrement stock, log the
`purchase` stock transaction. -/
def applyPlaceItems (oid : Nat) : State → List ValidatedItem → State
  | s, [] => s
  | s, v :: rest =>
    let s1 := { s with orderItems := s.orderItems ++
      [({ order_id := oid, product_id := v.product_id, quantity := v.quantity,
          price_at_purchase := v.price, cost_price_at_purchase := v.cost_price } : OrderItem)] }
    let s2 := { s1 with products := bumpStock s1.products v.product_id (-v.quantity) }
    let s3 := { s2 with stockTransactions := s2.stockTransactions ++
      [({ product_id := v.product_id, quantity_change := -v.quantity,
          reason := "purchase", related_order_id := some oid } : StockTransaction)] }
    applyPlaceItems oid s3 rest

/-- Step 8 of `placeOrder`: delete the cart items of the user's cart. -/
def clearUserCart (s : State) (uid : Nat) : State :=
  match s.carts.find? (fun c => c.user_id == uid) with
  | none => s
  | some c => { s with cartItems := s.cartItems.filter (fun ci => ci.cart_id != c.cart_id) }

/-- `placeOrder` of orders.service.js: owner and non-empty checks, then
the transactional workflow (validate, create order, items + stock +
ledger, payment, history, cart clearing). An `error` is a rollback. -/
def placeOrder (s : State) (user_id guest_id : Option Nat)
    (items : List RequestItem) (ship : Shipping) :
    Except String (State × OrderSummary) :=
  if (user_id.isSome && guest_id.isSome) || (user_id.isNone && guest_id.isNone) then
    .error "Either user_id or guest_id must be provided, but not both"
  else if items.isEmpty then
    .error "Order must contain at least one item"
  else
    match validateItems s items with
    | .error e => .error e
    | .ok (validated, total_products_price) =>
      let shipping_fees : ℚ := 0
      let discount_amount : ℚ := 0
      let final_total := total_products_price + shipping_fees - discount_amount
      let oid := s.nextOrderId
      let order : Order :=
        { order_id := oid, user_id := user_id, guest_id := guest_id,
          status := "Created", total_products_price := total_products_price,
          shipping_fees := shipping_fees, discount_amount := discount_amount,
          final_total := final_total, shipping_city := ship.city,
          shipping_street := ship.street, shipping_building := ship.building,
          shipping_phone := ship.phone, delivered_at := false }
      let s1 := { s with orders := s.orders ++ [order], nextOrderId := oid + 1 }
      let s2 := applyPlaceItems oid s1 validated
      let s3 := { s2 with payments := s2.payments ++
        [({ order_id := oid, payment_method := "cash_on_delivery",
            amount := final_total, status := "Pending" } : Payment)] }
      let s4 := { s3 with statusHistory := s3.statusHistory ++
        [({ order_id := oid, old_status := none, new_status := "Created" } : StatusHistory)] }
      let s5 := match user_id with
        | some uid => clearUserCart s4 uid
        | none => s4
      .ok (s5, { order_id := oid, status := "Created",
                 total_products_price := total_products_price,
                 shipping_fees := shipping_fees, discount_amount := discount_amount,
                 final_total := final_total, items_count := validated.length })

/-- `tx.payment.updateMany({ where: { order_id }, data: { status } })`. -/
def setPaymentsStatus (ps : List Payment) (oid : Nat) (st : String) : List Payment :=
  ps.map fun p => if p.order_id == oid then { p with status := st } else p

/-- The stock-restoration loop of `cancelOrder`: per order item, increment
the product's stock and log a `cancellation` stock transaction. -/
def cancelRestoreItems (oid : Nat) : State → List OrderItem → State
  | s, [] => s
  | s, it :: rest =>
    let s1 := { s with products := bumpStock s.products it.product_id it.quantity }
    let s2 := { s1 with stockTransactions := s1.stockTransactions ++
      [({ product_id := it.product_id, quantity_change := it.quantity,
          reason := "cancellation", related_order_id := some oid } : StockTransaction)] }
    cancelRestoreItems oid s2 rest

/-- `cancelOrder` of orders.service.js: owner-scoped lookup, Created-only
guard, restock loop, status / history / payment updates. -/
def cancelOrder (s : State) (order_id user_id : Nat) :
    Except String (State × Nat) :=
  match s.orders.find? (fun o => o.order_id == order_id && o.user_id == some user_id) with
  | none => .error "Order not found"
  | some order =>
    if order.status != "Created" then
      .error "Only orders with Created status can be cancelled"
    else
      let items := s.orderItems.filter (fun it => it.order_id == order_id)
      let s1 := cancelRestoreItems order_id s items
      let s2 := { s1 with orders := s1.orders.map fun (o : Order) =>
        if o.order_id == order_id then { o with status := "Cancelled" } else o }
      let s3 := { s2 with statusHistory := s2.statusHistory ++
        [({ order_id := order_id, old_status := some order.status,
            new_status := "Cancelled" } : StatusHistory)] }
      let s4 := { s3 with payments := setPaymentsStatus s3.payments order_id "Cancelled" }
      .ok (s4, order_id)

/-- The admin-settable statuses of `changeOrderStatus`. -/
def validStatuses : List String := ["Shipped", "Delivered", "Cancelled"]

/-- The `transitions` table of `changeOrderStatus`. -/
def allowedTransitions (st : String) : List String :=
  if st == "Created" then ["Shipped", "Cancelled"]
  else if st == "Shipped" then ["Delivered", "Cancelled"]
  else []

/-- The stock-restoration loop of the `Cancelled` branch of
`changeOrderStatus` (duplicated in the source, transcribed separately). -/
def adminRestoreItems (oid : Nat) : State → List OrderItem → State
  | s, [] => s
  | s, it :: rest =>
    let s1 := { s with products := bumpStock s.products it.product_id it.quantity }
    let s2 := { s1 with stockTransactions := s1.stockTransactions ++
      [({ product_id := it.product_id, quantity_change := it.quantity,
          reason := "cancellation", related_order_id := some oid } : StockTransaction)] }
    adminRestoreItems oid s2 rest

/-- `changeOrderStatus` of orders.service.js (admin): target-status
whitelist, transition-table guard, then status / history / payment
updates and, on cancellation, the restock loop. -/
def changeOrderStatus (s : State) (order_id : Nat) (new_status : String) :
    Except String (State × (String × String)) :=
  if !(validStatuses.contains new_status) then
    .error "Invalid status. Admin can only set: Shipped, Delivered, or Cancelled"
  else
    match s.orders.find? (fun o => o.order_id == order_id) with
    | none => .error "Order not found"
    | some order =>
      if !((allowedTransitions order.status).contains new_status) then
        .error ("Cannot change status from " ++ order.status ++ " to " ++ new_status)
      else
        let s1 := { s with orders := s.orders.map fun (o : Order) =>
          if o.order_id == order_id then
            { o with status := new_status,
                     delivered_at := if new_status == "Delivered" then true else o.delivered_at }
          else o }
        let s2 := { s1 with statusHistory := s1.statusHistory ++
          [({ order_id := order_id, old_status := some order.status,
              new_status := new_status } : StatusHistory)] }
        let s3 := if new_status == "Delivered" then
            { s2 with payments := setPaymentsStatus s2.payments order_id "Completed" }
          else s2
        let s4 := if new_status == "Cancelled" then
            let items := s3.orderItems.filter (fun it => it.order_id == order_id)
            let s4a := adminRestoreItems order_id s3 items
            { s4a with payments := setPaymentsStatus s4a.payments order_id "Cancelled" }
          else s3
        .ok (s4, (order.status, new_status))

/-- `adjustStock` of the products service (admin): reason whitelist,
active-product lookup, non-negative result guard, then the stock write
and its `StockTransaction` row in one transaction. -/
def adjustStock (s : State) (product_id : Nat) (quantity_change : ℚ) (reason : String) :
    Except String (State × (ℚ × ℚ × ℚ)) :=
  if !(["admin_add", "admin_remove"].contains reason) then
    .error "Invalid reason. Must be admin_add or admin_remove"
  else
    match s.products.find? (fun p => p.product_id == product_id && p.is_active) with
    | none => .error "Product not found"
    | some product =>
      let currentStock := product.stock_quantity
      let newStock := currentStock + quantity_change
      if newStock < 0 then
        .error "Insufficient stock for this adjustment"
      else
        let s1 := { s with products := s.products.map fun (p : Product) =>
          if p.product_id == product_id then { p with stock_quantity := newStock } else p }
        let s2 := { s1 with stockTransactions := s1.stockTransactions ++
          [({ product_id := product_id, quantity_change := quantity_change,
              reason := reason, related_order_id := none } : StockTransaction)] }
        .ok (s2, (currentStock, quantity_change, newStock))

/-- `createProduct` of the products service: category check, product
insert (default stock 0), and an `admin_add` StockTransaction row
logging the initial stock when it is positive. -/
def createProduct (s : State) (name : String) (price cost_price : ℚ)
    (sale_type : String) (stock_quantity : ℚ) (category_id : Nat) :
    Except String (State × Nat) :=
  if !(s.categories.contains category_id) then
    .error "Category not found"
  else
    let pid := s.nextProductId
    let product : Product :=
      { product_id := pid, name := name, price := price, cost_price := cost_price,
        sale_type := sale_type, stock_quantity := stock_quantity, is_active := true }
    let s1 := { s with products := s.products ++ [product], nextProductId := pid + 1 }
    let s2 := if 0 < stock_quantity then
        { s1 with stockTransactions := s1.stockTransactions ++
          [({ product_id := pid, quantity_change := stock_quantity,
              reason := "admin_add", related_order_id := none } : StockTransaction)] }
      else s1
    .ok (s2, pid)

/-- The `items.*.quantity` rule of orders.validators.js:
`isFloat({ min: 0.001 })`. -/
def quantityRuleOk (q : ℚ) : Bool :=
  decide ((1 : ℚ) / 1000 ≤ q)

/-- The `payment_status_check` CHECK constraint of the `payments` table
in the SQL schema: `status IN ('Pending','Completed','Failed','Refunded')`. -/
def paymentStatusCheck (status : String) : Bool :=
  ["Pending", "Completed", "Failed", "Refunded"].contains status

/-- The exposed mutating operations. `create` takes a non-negative
initial stock, the precondition the HTTP validator enforces
(products.validators.js: `stock_quantity` is `isFloat({ min: 0 })`)
and the `products` CHECK constraint persists. -/
inductive Op where
  | place (user_id guest_id : Option Nat) (items : List RequestItem) (ship : Shipping)
  | cancel (order_id user_id : Nat)
  | adminStatus (order_id : Nat) (new_status : String)
  | adjust (product_id : Nat) (quantity_change : ℚ) (reason : String)
  | create (name : String) (price cost_price : ℚ) (sale_type : String)
      (stock : {q : ℚ // 0 ≤ q}) (category_id : Nat)

/-- Run one operation: a successful transaction commits its state, a
failed one rolls back to the caller's state. -/
def step (s : State) : Op → State
  | .place uid gid items ship =>
    match placeOrder s uid gid items ship with
    | .ok (t, _) => t
    | .error _ => s
  | .cancel oid uid =>
    match cancelOrder s oid uid with
    | .ok (t, _) => t
    | .error _ => s
  | .adminStatus oid st =>
    match changeOrderStatus s oid st with
    | .ok (t, _) => t
    | .error _ => s
  | .adjust pid qc r =>
    match adjustStock s pid qc r with
    | .ok (t, _) => t
    | .error _ => s
  | .create n pr c sa q cat =>
    match createProduct s n pr c sa q.val cat with
    | .ok (t, _) => t
    | .error _ => s

/-- Run a sequence of operations. -/
def applyOps (s : State) : List Op → State
  | [] => s
  | op :: ops => applyOps (step s op) ops

/-- The store at first deployment: empty tables, fresh id counters,
an initial category. -/
def initialState : State :=
  { products := [], categories := [1], orders := [], orderItems := [],
    stockTransactions := [], payments := [], statusHistory := [],
    carts := [], cartItems := [], nextOrderId := 1, nextProductId := 1 }

/-- Sum of `quantity_change` over the stock transactions of one product. -/
def txnSum (ts : List StockTransaction) (pid : Nat) : ℚ :=
  ((ts.filter (fun t => t.product_id == pid)).map (fun t => t.quantity_change)).sum

/-- The ledger invariant of the spec: every product's stock equals the
sum of its stock-transaction deltas. -/
def ledgerInv (s : State) : Prop :=
  ∀ p ∈ s.products, p.stock_quantity = txnSum s.stockTransactions p.product_id

/-- Auxiliary invariant carried through the reachability proof: the
ledger equation plus id discipline (every stored row references a
product id already issued by the identity counter, and product ids are
pairwise distinct). -/
def goodState (s : State) : Prop :=
  ledgerInv s ∧
  (∀ p ∈ s.products, p.product_id < s.nextProductId) ∧
  (s.products.map Product.product_id).Nodup ∧
  (∀ t ∈ s.stockTransactions, t.product_id < s.nextProductId) ∧
  (∀ it ∈ s.orderItems, it.product_id < s.nextProductId)

/-- Total quantity a batch of validated items requests of one product. -/
def placedQty (vs : List ValidatedItem) (pid : Nat) : ℚ :=
  ((vs.filter (fun v => v.product_id == pid)).map (fun v => v.quantity)).sum

/-- Total quantity the order items of one order hold of one product. -/
def restoredQty (its : List OrderItem) (pid : Nat) : ℚ :=
  ((its.filter (fun it => it.product_id == pid)).map (fun it => it.quantity)).sum

/-- Concrete product: stock 10, price 5.00, cost 3.00 (the spec's
worked example). -/
def demoProduct : Product :=
  { product_id := 1, name := "A", price := 5, cost_price := 3,
    sale_type := "piece", stock_quantity := 10, is_active := true }

/-- Concrete shipping data for the worked examples. -/
def demoShip : Shipping :=
  { city := "C", street := "S", building := "B", phone := "0123456789" }

/-- Concrete store holding `demoProduct` and nothing else. -/
def demoState : State :=
  { products := [demoProduct], categories := [1], orders := [], orderItems := [],
    stockTransactions :=
      [{ product_id := 1, quantity_change := 10, reason := "admin_add", related_order_id := none }],
    payments := [], statusHistory := [], carts := [], cartItems := [],
    nextOrderId := 1, nextProductId := 2 }

/-- Order 1: placed by user 7 for 3 units of product 1, still `Created`. -/
def demoOrder : Order :=
  { order_id := 1, user_id := some 7, guest_id := none, status := "Created",
    total_products_price := 15, shipping_fees := 0, discount_amount := 0,
    final_total := 15, shipping_city := "C", shipping_street := "S",
    shipping_building := "B", shipping_phone := "0123456789", delivered_at := false }

/-- Concrete store after order 1 was placed: stock down to 7, a
`Created` order with its item, payment and history row. -/
def demoCancelState : State :=
  { products := [{ demoProduct with stock_quantity := 7 }], categories := [1],
    orders := [demoOrder],
    orderItems :=
      [{ order_id := 1, product_id := 1, quantity := 3,
         price_at_purchase := 5, cost_price_at_purchase := 3 }],
    stockTransactions :=
      [{ product_id := 1, quantity_change := 10, reason := "admin_add", related_order_id := none },
       { product_id := 1, quantity_change := -3, reason := "purchase", related_order_id := some 1 }],
    payments := [{ order_id := 1, payment_method := "cash_on_delivery", amount := 15, status := "Pending" }],
    statusHistory := [{ order_id := 1, old_status := none, new_status := "Created" }],
    carts := [], cartItems := [], nextOrderId := 2, nextProductId := 2 }

/-- `demoCancelState` with order 1 already `Delivered`. -/
def demoDeliveredState : State :=
  { demoCancelState with
    orders := [{ demoOrder with status := "Delivered", delivered_at := true }] }

/-- Store with a `Shipped` order of user 7 and a `Created` guest order. -/
def demoShippedGuestState : State :=
  { demoCancelState with
    orders :=
      [{ demoOrder with status := "Shipped" },
       { demoOrder with order_id := 2, user_id := none, guest_id := some 9 }],
    nextOrderId := 3 }

/-- The committed state of a successful `cancelOrder demoCancelState 1 7`
(`none` if the call fails). -/
def cancelOutcome : Option State :=
  match cancelOrder demoCancelState 1 7 with
  | .ok (t, _) => some t
  | .error _ => none

end Shop

namespace Shop

lemma placedQty_nil (pid : Nat) : placedQty [] pid = 0 := rfl

lemma placedQty_cons (v : ValidatedItem) (vs : List ValidatedItem) (pid : Nat) :
    placedQty (v :: vs) pid
      = (if v.product_id == pid then v.quantity else 0) + placedQty vs pid := by
  cases h : (v.product_id == pid) <;> simp [placedQty, List.filter_cons, h]

lemma restoredQty_nil (pid : Nat) : restoredQty [] pid = 0 := rfl

lemma restoredQty_cons (it : OrderItem) (its : List OrderItem) (pid : Nat) :
    restoredQty (it :: its) pid
      = (if it.product_id == pid then it.quantity else 0) + restoredQty its pid := by
  cases h : (it.product_id == pid) <;> simp [restoredQty, List.filter_cons, h]

lemma bumpStock_map_id (ps : List Product) (pid : Nat) (d : ℚ) :
    (bumpStock ps pid d).map Product.product_id = ps.map Product.product_id := by
  simp only [bumpStock, List.map_map]
  apply List.map_congr_left
  intro p _
  cases h : (p.product_id == pid) <;> simp [Function.comp, h]

lemma txnSum_append (ts : List StockTransaction) (t : StockTransaction) (pid : Nat) :
    txnSum (ts ++ [t]) pid
      = txnSum ts pid + (if t.product_id == pid then t.quantity_change else 0) := by
  cases h : (t.product_id == pid) <;>
    simp [txnSum, List.filter_append, List.filter_cons, h]

lemma ledger_delta (s : State) (pid : Nat) (d : ℚ) (r : String) (roid : Option Nat)
    (h : ledgerInv s) :
    ledgerInv { s with
      products := bumpStock s.products pid d,
      stockTransactions := s.stockTransactions ++
        [{ product_id := pid, quantity_change := d, reason := r, related_order_id := roid }] } := by
  intro p hp
  simp only [bumpStock, List.mem_map] at hp
  obtain ⟨q, hq, hpq⟩ := hp
  have hq' := h q hq
  subst hpq
  by_cases hpid : q.product_id = pid
  · subst hpid
    simp [txnSum_append, hq']
  · have hpid2 : ¬ pid = q.product_id := fun hh => hpid hh.symm
    simp [txnSum_append, hq', hpid, hpid2]

end Shop

namespace Shop

lemma applyPlaceItems_unchanged (oid : Nat) (vs : List ValidatedItem) :
    ∀ s : State,
      (applyPlaceItems oid s vs).orders = s.orders ∧
      (applyPlaceItems oid s vs).payments = s.payments ∧
      (applyPlaceItems oid s vs).statusHistory = s.statusHistory ∧
      (applyPlaceItems oid s vs).carts = s.carts ∧
      (applyPlaceItems oid s vs).cartItems = s.cartItems ∧
      (applyPlaceItems oid s vs).categories = s.categories ∧
      (applyPlaceItems oid s vs).nextOrderId = s.nextOrderId ∧
      (applyPlaceItems oid s vs).nextProductId = s.nextProductId := by
  induction vs with
  | nil => intro s; simp [applyPlaceItems]
  | cons v vs ih =>
    intro s
    simp only [applyPlaceItems]
    exact ih _

lemma applyPlaceItems_orderItems (oid : Nat) (vs : List ValidatedItem) :
    ∀ s : State, (applyPlaceItems oid s vs).orderItems
      = s.orderItems ++ vs.map (fun v =>
          ({ order_id := oid, product_id := v.product_id, quantity := v.quantity,
             price_at_purchase := v.price, cost_price_at_purchase := v.cost_price } : OrderItem)) := by
  induction vs with
  | nil => intro s; simp [applyPlaceItems]
  | cons v vs ih =>
    intro s
    simp only [applyPlaceItems]
    rw [ih]
    simp

lemma applyPlaceItems_txns (oid : Nat) (vs : List ValidatedItem) :
    ∀ s : State, (applyPlaceItems oid s vs).stockTransactions
      = s.stockTransactions ++ vs.map (fun v =>
          ({ product_id := v.product_id, quantity_change := -v.quantity,
             reason := "purchase", related_order_id := some oid } : StockTransaction)) := by
  induction vs with
  | nil => intro s; simp [applyPlaceItems]
  | cons v vs ih =>
    intro s
    simp only [applyPlaceItems]
    rw [ih]
    simp

lemma applyPlaceItems_products (oid : Nat) (vs : List ValidatedItem) :
    ∀ s : State, (applyPlaceItems oid s vs).products
      = s.products.map (fun p =>
          { p with stock_quantity := p.stock_quantity - placedQty vs p.product_id }) := by
  induction vs with
  | nil =>
    intro s
    have h : ∀ p ∈ s.products,
        ({ p with stock_quantity := p.stock_quantity - placedQty [] p.product_id } : Product) = p := by
      intro p _
      rw [placedQty_nil, sub_zero]
    simp only [applyPlaceItems]
    rw [List.map_congr_left h]
    simp
  | cons v vs ih =>
    intro s
    simp only [applyPlaceItems]
    rw [ih]
    simp only [bumpStock, List.map_map]
    apply List.map_congr_left
    intro p _
    by_cases hpid : p.product_id = v.product_id
    · have hb : (p.product_id == v.product_id) = true := by simp [hpid]
      have hb2 : (v.product_id == p.product_id) = true := by simp [hpid]
      simp only [Function.comp, hb, if_true, placedQty_cons, hb2]
      have : p.stock_quantity + -v.quantity - placedQty vs p.product_id
          = p.stock_quantity - (v.quantity + placedQty vs p.product_id) := by ring
      exact congrArg (fun q => { p with stock_quantity := q }) this
    · have hb : (p.product_id == v.product_id) = false := by simp [hpid]
      have hb2 : (v.product_id == p.product_id) = false := by
        simp only [beq_eq_false_iff_ne, ne_eq]
        exact fun hh => hpid hh.symm
      simp only [Function.comp, hb, Bool.false_eq_true, if_false, placedQty_cons, hb2]
      have : placedQty vs p.product_id = 0 + placedQty vs p.product_id := by ring
      exact congrArg (fun q => { p with stock_quantity := p.stock_quantity - q }) this

lemma restoreItems_unchanged (oid : Nat) (its : List OrderItem) :
    ∀ s : State,
      (cancelRestoreItems oid s its).orders = s.orders ∧
      (cancelRestoreItems oid s its).orderItems = s.orderItems ∧
      (cancelRestoreItems oid s its).payments = s.payments ∧
      (cancelRestoreItems oid s its).statusHistory = s.statusHistory ∧
      (cancelRestoreItems oid s its).carts = s.carts ∧
      (cancelRestoreItems oid s its).cartItems = s.cartItems ∧
      (cancelRestoreItems oid s its).categories = s.categories ∧
      (cancelRestoreItems oid s its).nextOrderId = s.nextOrderId ∧
      (cancelRestoreItems oid s its).nextProductId = s.nextProductId := by
  induction its with
  | nil => intro s; simp [cancelRestoreItems]
  | cons it its ih =>
    intro s
    simp only [cancelRestoreItems]
    exact ih _

lemma restoreItems_txns (oid : Nat) (its : List OrderItem) :
    ∀ s : State, (cancelRestoreItems oid s its).stockTransactions
      = s.stockTransactions ++ its.map (fun it =>
          ({ product_id := it.product_id, quantity_change := it.quantity,
             reason := "cancellation", related_order_id := some oid } : StockTransaction)) := by
  induction its with
  | nil => intro s; simp [cancelRestoreItems]
  | cons it its ih =>
    intro s
    simp only [cancelRestoreItems]
    rw [ih]
    simp

lemma restoreItems_products (oid : Nat) (its : List OrderItem) :
    ∀ s : State, (cancelRestoreItems oid s its).products
      = s.products.map (fun p =>
          { p with stock_quantity := p.stock_quantity + restoredQty its p.product_id }) := by
  induction its with
  | nil =>
    intro s
    have h : ∀ p ∈ s.products,
        ({ p with stock_quantity := p.stock_quantity + restoredQty [] p.product_id } : Product) = p := by
      intro p _
      rw [restoredQty_nil, add_zero]
    simp only [cancelRestoreItems]
    rw [List.map_congr_left h]
    simp
  | cons it its ih =>
    intro s
    simp only [cancelRestoreItems]
    rw [ih]
    simp only [bumpStock, List.map_map]
    apply List.map_congr_left
    intro p _
    by_cases hpid : p.product_id = it.product_id
    · have hb : (p.product_id == it.product_id) = true := by simp [hpid]
      have hb2 : (it.product_id == p.product_id) = true := by simp [hpid]
      simp only [Function.comp, hb, if_true, restoredQty_cons, hb2]
      have : p.stock_quantity + it.quantity + restoredQty its p.product_id
          = p.stock_quantity + (it.quantity + restoredQty its p.product_id) := by ring
      exact congrArg (fun q => { p with stock_quantity := q }) this
    · have hb : (p.product_id == it.product_id) = false := by simp [hpid]
      have hb2 : (it.product_id == p.product_id) = false := by
        simp only [beq_eq_false_iff_ne, ne_eq]
        exact fun hh => hpid hh.symm
      simp only [Function.comp, hb, Bool.false_eq_true, if_false, restoredQty_cons, hb2]
      have : restoredQty its p.product_id = 0 + restoredQty its p.product_id := by ring
      exact congrArg (fun q => { p with stock_quantity := p.stock_quantity + q }) this

lemma adminRestoreItems_eq (oid : Nat) (its : List OrderItem) :
    ∀ s : State, adminRestoreItems oid s its = cancelRestoreItems oid s its := by
  induction its with
  | nil => intro s; rfl
  | cons it its ih =>
    intro s
    simp only [adminRestoreItems, cancelRestoreItems]
    exact ih _

end Shop

namespace Shop

lemma findActiveProduct_mem {s : State} {pid : Nat} {p : Product}
    (h : findActiveProduct s pid = some p) : p ∈ s.products :=
  List.mem_of_find?_eq_some h

lemma findActiveProduct_id {s : State} {pid : Nat} {p : Product}
    (h : findActiveProduct s pid = some p) : p.product_id = pid := by
  have := List.find?_some h
  simp only [Bool.and_eq_true, beq_iff_eq] at this
  exact this.1

lemma validateItems_ok (s : State) :
    ∀ (items : List RequestItem) (vs : List ValidatedItem) (total : ℚ),
      validateItems s items = .ok (vs, total) →
      (∀ v ∈ vs, ∃ p ∈ s.products,
        findActiveProduct s v.product_id = some p ∧
        v.product_id = p.product_id ∧ v.price = p.price ∧
        v.cost_price = p.cost_price ∧ v.subtotal = v.quantity * p.price) ∧
      total = (vs.map (fun v => v.subtotal)).sum := by
  intro items
  induction items with
  | nil =>
    intro vs total h
    simp only [validateItems, Except.ok.injEq, Prod.mk.injEq] at h
    obtain ⟨h1, h2⟩ := h
    subst h1; subst h2
    simp
  | cons item rest ih =>
    intro vs total h
    simp only [validateItems] at h
    cases hf : findActiveProduct s item.product_id with
    | none => rw [hf] at h; simp at h
    | some product =>
      rw [hf] at h
      dsimp only at h
      by_cases hlt : product.stock_quantity < item.quantity
      · rw [if_pos hlt] at h; simp at h
      · rw [if_neg hlt] at h
        cases hrec : validateItems s rest with
        | error e => rw [hrec] at h; simp at h
        | ok pr =>
          obtain ⟨vs0, total0⟩ := pr
          rw [hrec] at h
          dsimp only at h
          simp only [Except.ok.injEq, Prod.mk.injEq] at h
          obtain ⟨hvs, htot⟩ := h
          subst hvs; subst htot
          obtain ⟨ih1, ih2⟩ := ih vs0 total0 hrec
          have hpid := findActiveProduct_id hf
          constructor
          · intro v hv
            rcases List.mem_cons.mp hv with rfl | hv
            · refine ⟨product, findActiveProduct_mem hf, ?_, rfl, rfl, rfl, rfl⟩
              simpa [hpid] using hf
            · exact ih1 v hv
          · simp [ih2]

lemma validateItems_insufficient (s : State) (it : RequestItem) (p : Product)
    (post : List RequestItem) :
    ∀ pre : List RequestItem,
      (∀ j ∈ pre, ∃ q, findActiveProduct s j.product_id = some q ∧
        ¬(q.stock_quantity < j.quantity)) →
      findActiveProduct s it.product_id = some p →
      p.stock_quantity < it.quantity →
      validateItems s (pre ++ it :: post) = .error (insufficientMsg p) := by
  intro pre
  induction pre with
  | nil =>
    intro _ hit hlow
    simp only [List.nil_append, validateItems]
    rw [hit]
    dsimp only
    rw [if_pos hlow]
  | cons j pre ih =>
    intro hpre hit hlow
    obtain ⟨q, hq, hnq⟩ := hpre j (List.mem_cons_self _ _)
    simp only [List.cons_append, validateItems]
    rw [hq]
    dsimp only
    rw [if_neg hnq]
    rw [show pre.append (it :: post) = pre ++ it :: post from rfl,
        ih (fun x hx => hpre x (List.mem_cons_of_mem _ hx)) hit hlow]

lemma clearUserCart_unchanged (s : State) (uid : Nat) :
    (clearUserCart s uid).products = s.products ∧
    (clearUserCart s uid).orders = s.orders ∧
    (clearUserCart s uid).orderItems = s.orderItems ∧
    (clearUserCart s uid).stockTransactions = s.stockTransactions ∧
    (clearUserCart s uid).payments = s.payments ∧
    (clearUserCart s uid).statusHistory = s.statusHistory ∧
    (clearUserCart s uid).nextOrderId = s.nextOrderId ∧
    (clearUserCart s uid).nextProductId = s.nextProductId ∧
    (clearUserCart s uid).categories = s.categories ∧
    (clearUserCart s uid).carts = s.carts := by
  unfold clearUserCart
  cases s.carts.find? (fun c => c.user_id == uid) <;> simp

end Shop

namespace Shop

lemma placeOrder_ok (s : State) (uid gid : Option Nat) (items : List RequestItem)
    (ship : Shipping) (vs : List ValidatedItem) (total : ℚ)
    (hcond : ((uid.isSome && gid.isSome) || (uid.isNone && gid.isNone)) = false)
    (hne : items.isEmpty = false)
    (hval : validateItems s items = .ok (vs, total)) :
    ∃ t : State,
      placeOrder s uid gid items ship
        = .ok (t, { order_id := s.nextOrderId, status := "Created",
                    total_products_price := total, shipping_fees := 0,
                    discount_amount := 0, final_total := total,
                    items_count := vs.length }) ∧
      t.products = s.products.map (fun p =>
        { p with stock_quantity := p.stock_quantity - placedQty vs p.product_id }) ∧
      t.stockTransactions = s.stockTransactions ++ vs.map (fun v =>
        ({ product_id := v.product_id, quantity_change := -v.quantity,
           reason := "purchase", related_order_id := some s.nextOrderId } : StockTransaction)) ∧
      t.orderItems = s.orderItems ++ vs.map (fun v =>
        ({ order_id := s.nextOrderId, product_id := v.product_id, quantity := v.quantity,
           price_at_purchase := v.price, cost_price_at_purchase := v.cost_price } : OrderItem)) ∧
      t.orders = s.orders ++
        [({ order_id := s.nextOrderId, user_id := uid, guest_id := gid, status := "Created",
            total_products_price := total, shipping_fees := 0, discount_amount := 0,
            final_total := total, shipping_city := ship.city, shipping_street := ship.street,
            shipping_building := ship.building, shipping_phone := ship.phone,
            delivered_at := false } : Order)] ∧
      t.payments = s.payments ++
        [({ order_id := s.nextOrderId, payment_method := "cash_on_delivery",
            amount := total, status := "Pending" } : Payment)] ∧
      t.statusHistory = s.statusHistory ++
        [({ order_id := s.nextOrderId, old_status := none, new_status := "Created" } : StatusHistory)] ∧
      t.nextOrderId = s.nextOrderId + 1 ∧
      t.nextProductId = s.nextProductId := by
  have htot : total + (0:ℚ) - 0 = total := by ring
  unfold placeOrder
  rw [hcond, hne, hval]
  dsimp only
  rw [htot]
  rcases uid with _ | u
  · refine ⟨_, rfl, ?_, ?_, ?_, ?_, ?_, ?_, ?_, ?_⟩
    · dsimp only
      rw [applyPlaceItems_products]
    · dsimp only
      rw [applyPlaceItems_txns]
    · dsimp only
      rw [applyPlaceItems_orderItems]
    · dsimp only
      rw [(applyPlaceItems_unchanged _ _ _).1]
    · dsimp only
      rw [(applyPlaceItems_unchanged _ _ _).2.1]
    · dsimp only
      rw [(applyPlaceItems_unchanged _ _ _).2.2.1]
    · dsimp only
      rw [(applyPlaceItems_unchanged _ _ _).2.2.2.2.2.2.1]
    · dsimp only
      rw [(applyPlaceItems_unchanged _ _ _).2.2.2.2.2.2.2]
  · refine ⟨_, rfl, ?_, ?_, ?_, ?_, ?_, ?_, ?_, ?_⟩
    · dsimp only
      rw [(clearUserCart_unchanged _ _).1]
      dsimp only
      rw [applyPlaceItems_products]
    · dsimp only
      rw [(clearUserCart_unchanged _ _).2.2.2.1]
      dsimp only
      rw [applyPlaceItems_txns]
    · dsimp only
      rw [(clearUserCart_unchanged _ _).2.2.1]
      dsimp only
      rw [applyPlaceItems_orderItems]
    · dsimp only
      rw [(clearUserCart_unchanged _ _).2.1]
      dsimp only
      rw [(applyPlaceItems_unchanged _ _ _).1]
    · dsimp only
      rw [(clearUserCart_unchanged _ _).2.2.2.2.1]
      dsimp only
      rw [(applyPlaceItems_unchanged _ _ _).2.1]
    · dsimp only
      rw [(clearUserCart_unchanged _ _).2.2.2.2.2.1]
      dsimp only
      rw [(applyPlaceItems_unchanged _ _ _).2.2.1]
    · dsimp only
      rw [(clearUserCart_unchanged _ _).2.2.2.2.2.2.1]
      dsimp only
      rw [(applyPlaceItems_unchanged _ _ _).2.2.2.2.2.2.1]
    · dsimp only
      rw [(clearUserCart_unchanged _ _).2.2.2.2.2.2.2.1]
      dsimp only
      rw [(applyPlaceItems_unchanged _ _ _).2.2.2.2.2.2.2]

end Shop

namespace Shop

lemma cancelOrder_ok (s : State) (order_id user_id : Nat) (order : Order)
    (hfind : s.orders.find? (fun o => o.order_id == order_id && o.user_id == some user_id)
      = some order)
    (hst : order.status = "Created") :
    ∃ t : State,
      cancelOrder s order_id user_id = .ok (t, order_id) ∧
      t.products = s.products.map (fun p =>
        { p with stock_quantity := p.stock_quantity
            + restoredQty (s.orderItems.filter (fun it => it.order_id == order_id)) p.product_id }) ∧
      t.stockTransactions = s.stockTransactions ++
        (s.orderItems.filter (fun it => it.order_id == order_id)).map (fun it =>
          ({ product_id := it.product_id, quantity_change := it.quantity,
             reason := "cancellation", related_order_id := some order_id } : StockTransaction)) ∧
      t.orders = s.orders.map (fun o =>
        if o.order_id == order_id then { o with status := "Cancelled" } else o) ∧
      t.statusHistory = s.statusHistory ++
        [({ order_id := order_id, old_status := some "Created",
            new_status := "Cancelled" } : StatusHistory)] ∧
      t.payments = setPaymentsStatus s.payments order_id "Cancelled" ∧
      t.orderItems = s.orderItems ∧
      t.nextOrderId = s.nextOrderId ∧
      t.nextProductId = s.nextProductId := by
  unfold cancelOrder
  rw [hfind]
  dsimp only
  rw [hst]
  simp only [bne_self_eq_false, Bool.false_eq_true, if_false]
  refine ⟨_, rfl, ?_, ?_, ?_, ?_, ?_, ?_, ?_, ?_⟩
  · dsimp only
    rw [restoreItems_products]
  · dsimp only
    rw [restoreItems_txns]
  · dsimp only
    rw [(restoreItems_unchanged _ _ _).1]
  · dsimp only
    rw [(restoreItems_unchanged _ _ _).2.2.2.1]
  · dsimp only
    rw [(restoreItems_unchanged _ _ _).2.2.1]
  · dsimp only
    rw [(restoreItems_unchanged _ _ _).2.1]
  · dsimp only
    rw [(restoreItems_unchanged _ _ _).2.2.2.2.2.2.2.1]
  · dsimp only
    rw [(restoreItems_unchanged _ _ _).2.2.2.2.2.2.2.2]

lemma changeOrderStatus_cancel_ok (s : State) (oid : Nat) (o : Order)
    (hfind : s.orders.find? (fun x => x.order_id == oid) = some o)
    (htrans : (allowedTransitions o.status).contains "Cancelled" = true) :
    ∃ t : State,
      changeOrderStatus s oid "Cancelled" = .ok (t, (o.status, "Cancelled")) ∧
      t.products = s.products.map (fun p =>
        { p with stock_quantity := p.stock_quantity
            + restoredQty (s.orderItems.filter (fun it => it.order_id == oid)) p.product_id }) ∧
      t.stockTransactions = s.stockTransactions ++
        (s.orderItems.filter (fun it => it.order_id == oid)).map (fun it =>
          ({ product_id := it.product_id, quantity_change := it.quantity,
             reason := "cancellation", related_order_id := some oid } : StockTransaction)) ∧
      t.payments = setPaymentsStatus s.payments oid "Cancelled" := by
  unfold changeOrderStatus
  simp only [show (validStatuses.contains "Cancelled") = true from rfl, Bool.not_true,
    Bool.false_eq_true, if_false]
  rw [hfind]
  dsimp only
  rw [htrans]
  simp only [Bool.not_true, Bool.false_eq_true, if_false]
  simp only [show (("Cancelled" : String) == "Delivered") = false from rfl,
    show (("Cancelled" : String) == "Cancelled") = true from rfl,
    Bool.false_eq_true, if_false, if_true]
  rw [adminRestoreItems_eq]
  refine ⟨_, rfl, ?_, ?_, ?_⟩
  · dsimp only
    rw [restoreItems_products]
  · dsimp only
    rw [restoreItems_txns]
  · dsimp only
    rw [(restoreItems_unchanged _ _ _).2.2.1]

end Shop

namespace Shop

lemma txnSum_cons (t : StockTransaction) (ts : List StockTransaction) (pid : Nat) :
    txnSum (t :: ts) pid
      = (if t.product_id == pid then t.quantity_change else 0) + txnSum ts pid := by
  cases h : (t.product_id == pid) <;> simp [txnSum, List.filter_cons, h]

lemma txnSum_append_list (a b : List StockTransaction) (pid : Nat) :
    txnSum (a ++ b) pid = txnSum a pid + txnSum b pid := by
  simp [txnSum, List.filter_append]

lemma txnSum_purchaseRows (oid : Nat) (pid : Nat) :
    ∀ vs : List ValidatedItem,
      txnSum (vs.map (fun v =>
        ({ product_id := v.product_id, quantity_change := -v.quantity,
           reason := "purchase", related_order_id := some oid } : StockTransaction))) pid
      = -placedQty vs pid := by
  intro vs
  induction vs with
  | nil => simp [txnSum, placedQty]
  | cons v vs ih =>
    rw [List.map_cons, txnSum_cons, placedQty_cons, ih]
    cases h : (v.product_id == pid)
    · simp
    · simp
      ring

lemma txnSum_cancelRows (oid : Nat) (pid : Nat) :
    ∀ its : List OrderItem,
      txnSum (its.map (fun it =>
        ({ product_id := it.product_id, quantity_change := it.quantity,
           reason := "cancellation", related_order_id := some oid } : StockTransaction))) pid
      = restoredQty its pid := by
  intro its
  induction its with
  | nil => simp [txnSum, restoredQty]
  | cons it its ih =>
    rw [List.map_cons, txnSum_cons, restoredQty_cons, ih]

lemma txnSum_fresh (ts : List StockTransaction) (pid : Nat)
    (h : ∀ t ∈ ts, t.product_id ≠ pid) : txnSum ts pid = 0 := by
  have : ts.filter (fun t => t.product_id == pid) = [] := by
    rw [List.filter_eq_nil_iff]
    intro t ht
    simp [h t ht]
  simp [txnSum, this]

lemma stockMap_map_id (ps : List Product) (g : Product → ℚ) :
    ((ps.map (fun p => { p with stock_quantity := g p })).map Product.product_id)
      = ps.map Product.product_id := by
  rw [List.map_map]
  rfl

end Shop

namespace Shop

lemma placeOrder_inv {s : State} {uid gid : Option Nat} {items : List RequestItem}
    {ship : Shipping} {t : State} {summ : OrderSummary}
    (hres : placeOrder s uid gid items ship = .ok (t, summ)) :
    ((uid.isSome && gid.isSome) || (uid.isNone && gid.isNone)) = false ∧
    items.isEmpty = false ∧
    ∃ vs total, validateItems s items = .ok (vs, total) := by
  unfold placeOrder at hres
  cases h1 : ((uid.isSome && gid.isSome) || (uid.isNone && gid.isNone)) with
  | true => rw [h1] at hres; simp at hres
  | false =>
    rw [h1] at hres
    simp only [Bool.false_eq_true, if_false] at hres
    cases h2 : items.isEmpty with
    | true => rw [h2] at hres; simp at hres
    | false =>
      rw [h2] at hres
      simp only [Bool.false_eq_true, if_false] at hres
      cases h3 : validateItems s items with
      | error e => rw [h3] at hres; simp at hres
      | ok pr =>
        obtain ⟨vs, total⟩ := pr
        exact ⟨rfl, rfl, vs, total, rfl⟩

lemma cancelOrder_inv {s : State} {oid uid : Nat} {t : State} {r : Nat}
    (hres : cancelOrder s oid uid = .ok (t, r)) :
    ∃ order, s.orders.find? (fun o => o.order_id == oid && o.user_id == some uid) = some order
      ∧ order.status = "Created" := by
  unfold cancelOrder at hres
  cases hf : s.orders.find? (fun o => o.order_id == oid && o.user_id == some uid) with
  | none => rw [hf] at hres; simp at hres
  | some order =>
    rw [hf] at hres
    dsimp only at hres
    cases hst : (order.status != "Created") with
    | true => rw [hst] at hres; simp at hres
    | false =>
      refine ⟨order, rfl, ?_⟩
      simpa using hst

lemma changeOrderStatus_effects {s : State} {oid : Nat} {st : String} {t : State}
    {pr : String × String} (hres : changeOrderStatus s oid st = .ok (t, pr)) :
    t.orderItems = s.orderItems ∧ t.nextProductId = s.nextProductId ∧
    ((t.products = s.products ∧ t.stockTransactions = s.stockTransactions) ∨
     (t.products = s.products.map (fun p =>
        { p with stock_quantity := p.stock_quantity
            + restoredQty (s.orderItems.filter (fun it => it.order_id == oid)) p.product_id }) ∧
      t.stockTransactions = s.stockTransactions ++
        (s.orderItems.filter (fun it => it.order_id == oid)).map (fun it =>
          ({ product_id := it.product_id, quantity_change := it.quantity,
             reason := "cancellation", related_order_id := some oid } : StockTransaction)))) := by
  unfold changeOrderStatus at hres
  cases hv : (validStatuses.contains st) with
  | false => rw [hv] at hres; simp at hres
  | true =>
    rw [hv] at hres
    simp only [Bool.not_true, Bool.false_eq_true, if_false] at hres
    cases hf : s.orders.find? (fun o => o.order_id == oid) with
    | none => rw [hf] at hres; simp at hres
    | some o =>
      rw [hf] at hres
      dsimp only at hres
      cases ht : ((allowedTransitions o.status).contains st) with
      | false => rw [ht] at hres; simp at hres
      | true =>
        rw [ht] at hres
        simp only [Bool.not_true, Bool.false_eq_true, if_false] at hres
        cases hC : (st == "Cancelled") with
        | true =>
          have hst : st = "Cancelled" := by simpa using hC
          subst hst
          simp only [show (("Cancelled" : String) == "Delivered") = false from rfl,
            show (("Cancelled" : String) == "Cancelled") = true from rfl,
            Bool.false_eq_true, if_false, if_true,
            Except.ok.injEq, Prod.mk.injEq] at hres
          obtain ⟨hX, -⟩ := hres
          subst hX
          rw [adminRestoreItems_eq]
          refine ⟨?_, ?_, Or.inr ⟨?_, ?_⟩⟩
          · dsimp only
            rw [(restoreItems_unchanged _ _ _).2.1]
          · dsimp only
            rw [(restoreItems_unchanged _ _ _).2.2.2.2.2.2.2.2]
          · dsimp only
            rw [restoreItems_products]
          · dsimp only
            rw [restoreItems_txns]
        | false =>
          rw [hC] at hres
          simp only [Bool.false_eq_true, if_false] at hres
          cases hD : (st == "Delivered") with
          | true =>
            rw [hD] at hres
            simp only [if_true, Except.ok.injEq, Prod.mk.injEq] at hres
            obtain ⟨hX, -⟩ := hres
            subst hX
            exact ⟨rfl, rfl, Or.inl ⟨rfl, rfl⟩⟩
          | false =>
            rw [hD] at hres
            simp only [Bool.false_eq_true, if_false, Except.ok.injEq, Prod.mk.injEq] at hres
            obtain ⟨hX, -⟩ := hres
            subst hX
            exact ⟨rfl, rfl, Or.inl ⟨rfl, rfl⟩⟩

lemma adjustStock_effects {s : State} {pid : Nat} {qc : ℚ} {r : String} {t : State}
    {info : ℚ × ℚ × ℚ} (hres : adjustStock s pid qc r = .ok (t, info)) :
    ∃ product, s.products.find? (fun p => p.product_id == pid && p.is_active) = some product ∧
      t.products = s.products.map (fun p =>
        if p.product_id == pid then { p with stock_quantity := product.stock_quantity + qc }
        else p) ∧
      t.stockTransactions = s.stockTransactions ++
        [({ product_id := pid, quantity_change := qc, reason := r,
            related_order_id := none } : StockTransaction)] ∧
      t.orderItems = s.orderItems ∧ t.nextProductId = s.nextProductId := by
  unfold adjustStock at hres
  cases hr : (["admin_add", "admin_remove"].contains r) with
  | false => rw [hr] at hres; simp at hres
  | true =>
    rw [hr] at hres
    simp only [Bool.not_true, Bool.false_eq_true, if_false] at hres
    cases hf : s.products.find? (fun p => p.product_id == pid && p.is_active) with
    | none => rw [hf] at hres; simp at hres
    | some product =>
      rw [hf] at hres
      dsimp only at hres
      by_cases hneg : product.stock_quantity + qc < 0
      · rw [if_pos hneg] at hres; simp at hres
      · rw [if_neg hneg] at hres
        simp only [Except.ok.injEq, Prod.mk.injEq] at hres
        obtain ⟨hX, -⟩ := hres
        subst hX
        exact ⟨product, rfl, rfl, rfl, rfl, rfl⟩

lemma createProduct_effects {s : State} {nm : String} {price cost : ℚ} {sa : String}
    {q : ℚ} {cat : Nat} {t : State} {pid : Nat}
    (hres : createProduct s nm price cost sa q cat = .ok (t, pid)) :
    t.products = s.products ++
      [({ product_id := s.nextProductId, name := nm, price := price, cost_price := cost,
          sale_type := sa, stock_quantity := q, is_active := true } : Product)] ∧
    ((0 < q ∧ t.stockTransactions = s.stockTransactions ++
        [({ product_id := s.nextProductId, quantity_change := q, reason := "admin_add",
            related_order_id := none } : StockTransaction)]) ∨
     (¬(0 < q) ∧ t.stockTransactions = s.stockTransactions)) ∧
    t.orderItems = s.orderItems ∧
    t.nextProductId = s.nextProductId + 1 := by
  unfold createProduct at hres
  cases hc : (s.categories.contains cat) with
  | false => rw [hc] at hres; simp at hres
  | true =>
    rw [hc] at hres
    simp only [Bool.not_true, Bool.false_eq_true, if_false] at hres
    by_cases hq : (0 : ℚ) < q
    · rw [if_pos hq] at hres
      simp only [Except.ok.injEq, Prod.mk.injEq] at hres
      obtain ⟨hX, -⟩ := hres
      subst hX
      exact ⟨rfl, Or.inl ⟨hq, rfl⟩, rfl, rfl⟩
    · rw [if_neg hq] at hres
      simp only [Except.ok.injEq, Prod.mk.injEq] at hres
      obtain ⟨hX, -⟩ := hres
      subst hX
      exact ⟨rfl, Or.inr ⟨hq, rfl⟩, rfl, rfl⟩

end Shop

namespace Shop

lemma place_good {s : State} {uid gid : Option Nat} {items : List RequestItem}
    {ship : Shipping} {t : State} {summ : OrderSummary}
    (h : goodState s) (hres : placeOrder s uid gid items ship = .ok (t, summ)) :
    goodState t := by
  obtain ⟨hL, hPB, hND, hTB, hOB⟩ := h
  obtain ⟨hcond, hne, vs, total, hval⟩ := placeOrder_inv hres
  obtain ⟨t', heq, hprod, htxn, hoi, -, -, -, -, hnpid⟩ :=
    placeOrder_ok s uid gid items ship vs total hcond hne hval
  rw [hres] at heq
  simp only [Except.ok.injEq, Prod.mk.injEq] at heq
  obtain ⟨hteq, -⟩ := heq
  subst hteq
  obtain ⟨hvmem, -⟩ := validateItems_ok s items vs total hval
  have hvb : ∀ v ∈ vs, v.product_id < s.nextProductId := by
    intro v hv
    obtain ⟨p, hp, -, hpid, -⟩ := hvmem v hv
    rw [hpid]
    exact hPB p hp
  refine ⟨?_, ?_, ?_, ?_, ?_⟩
  · intro p' hp'
    rw [hprod] at hp'
    simp only [List.mem_map] at hp'
    obtain ⟨p, hp, rfl⟩ := hp'
    rw [htxn]
    dsimp only
    rw [txnSum_append_list, txnSum_purchaseRows, hL p hp]
    ring
  · intro p' hp'
    rw [hprod] at hp'
    simp only [List.mem_map] at hp'
    obtain ⟨p, hp, rfl⟩ := hp'
    rw [hnpid]
    exact hPB p hp
  · rw [hprod,
      stockMap_map_id s.products (fun p => p.stock_quantity - placedQty vs p.product_id)]
    exact hND
  · intro tx htx
    rw [htxn] at htx
    rw [hnpid]
    rcases List.mem_append.mp htx with hold | hnew
    · exact hTB tx hold
    · simp only [List.mem_map] at hnew
      obtain ⟨v, hv, rfl⟩ := hnew
      exact hvb v hv
  · intro it hit
    rw [hoi] at hit
    rw [hnpid]
    rcases List.mem_append.mp hit with hold | hnew
    · exact hOB it hold
    · simp only [List.mem_map] at hnew
      obtain ⟨v, hv, rfl⟩ := hnew
      exact hvb v hv

end Shop

namespace Shop

lemma cancel_good {s : State} {oid uid : Nat} {t : State} {r : Nat}
    (h : goodState s) (hres : cancelOrder s oid uid = .ok (t, r)) :
    goodState t := by
  obtain ⟨hL, hPB, hND, hTB, hOB⟩ := h
  obtain ⟨order, hfind, hst⟩ := cancelOrder_inv hres
  obtain ⟨t', heq, hprod, htxn, -, -, -, hoi, -, hnpid⟩ :=
    cancelOrder_ok s oid uid order hfind hst
  rw [hres] at heq
  simp only [Except.ok.injEq, Prod.mk.injEq] at heq
  obtain ⟨hteq, -⟩ := heq
  subst hteq
  have hfb : ∀ it ∈ s.orderItems.filter (fun it => it.order_id == oid),
      it.product_id < s.nextProductId := by
    intro it hit
    exact hOB it (List.mem_of_mem_filter hit)
  refine ⟨?_, ?_, ?_, ?_, ?_⟩
  · intro p' hp'
    rw [hprod] at hp'
    simp only [List.mem_map] at hp'
    obtain ⟨p, hp, rfl⟩ := hp'
    rw [htxn]
    dsimp only
    rw [txnSum_append_list, txnSum_cancelRows, hL p hp]
  · intro p' hp'
    rw [hprod] at hp'
    simp only [List.mem_map] at hp'
    obtain ⟨p, hp, rfl⟩ := hp'
    rw [hnpid]
    exact hPB p hp
  · rw [hprod, stockMap_map_id s.products
      (fun p => p.stock_quantity
        + restoredQty (s.orderItems.filter (fun it => it.order_id == oid)) p.product_id)]
    exact hND
  · intro tx htx
    rw [htxn] at htx
    rw [hnpid]
    rcases List.mem_append.mp htx with hold | hnew
    · exact hTB tx hold
    · simp only [List.mem_map] at hnew
      obtain ⟨it, hit, rfl⟩ := hnew
      exact hfb it hit
  · intro it hit
    rw [hoi] at hit
    rw [hnpid]
    exact hOB it hit

lemma admin_good {s : State} {oid : Nat} {st : String} {t : State} {pr : String × String}
    (h : goodState s) (hres : changeOrderStatus s oid st = .ok (t, pr)) :
    goodState t := by
  obtain ⟨hL, hPB, hND, hTB, hOB⟩ := h
  obtain ⟨hoi, hnpid, hdisj⟩ := changeOrderStatus_effects hres
  have hfb : ∀ it ∈ s.orderItems.filter (fun it => it.order_id == oid),
      it.product_id < s.nextProductId := by
    intro it hit
    exact hOB it (List.mem_of_mem_filter hit)
  rcases hdisj with ⟨hprod, htxn⟩ | ⟨hprod, htxn⟩
  · refine ⟨?_, ?_, ?_, ?_, ?_⟩
    · intro p' hp'
      rw [hprod] at hp'
      rw [htxn]
      exact hL p' hp'
    · intro p' hp'
      rw [hprod] at hp'
      rw [hnpid]
      exact hPB p' hp'
    · rw [hprod]
      exact hND
    · intro tx htx
      rw [htxn] at htx
      rw [hnpid]
      exact hTB tx htx
    · intro it hit
      rw [hoi] at hit
      rw [hnpid]
      exact hOB it hit
  · refine ⟨?_, ?_, ?_, ?_, ?_⟩
    · intro p' hp'
      rw [hprod] at hp'
      simp only [List.mem_map] at hp'
      obtain ⟨p, hp, rfl⟩ := hp'
      rw [htxn]
      dsimp only
      rw [txnSum_append_list, txnSum_cancelRows, hL p hp]
    · intro p' hp'
      rw [hprod] at hp'
      simp only [List.mem_map] at hp'
      obtain ⟨p, hp, rfl⟩ := hp'
      rw [hnpid]
      exact hPB p hp
    · rw [hprod, stockMap_map_id s.products
        (fun p => p.stock_quantity
          + restoredQty (s.orderItems.filter (fun it => it.order_id == oid)) p.product_id)]
      exact hND
    · intro tx htx
      rw [htxn] at htx
      rw [hnpid]
      rcases List.mem_append.mp htx with hold | hnew
      · exact hTB tx hold
      · simp only [List.mem_map] at hnew
        obtain ⟨it, hit, rfl⟩ := hnew
        exact hfb it hit
    · intro it hit
      rw [hoi] at hit
      rw [hnpid]
      exact hOB it hit

end Shop

namespace Shop

lemma adjust_good {s : State} {pid : Nat} {qc : ℚ} {r : String} {t : State}
    {info : ℚ × ℚ × ℚ} (h : goodState s) (hres : adjustStock s pid qc r = .ok (t, info)) :
    goodState t := by
  obtain ⟨hL, hPB, hND, hTB, hOB⟩ := h
  obtain ⟨product, hfind, hprod, htxn, hoi, hnpid⟩ := adjustStock_effects hres
  have hmem : product ∈ s.products := List.mem_of_find?_eq_some hfind
  have hpid : product.product_id = pid := by
    have := List.find?_some hfind
    simp only [Bool.and_eq_true, beq_iff_eq] at this
    exact this.1
  have hidmap : (s.products.map (fun p =>
      if p.product_id == pid then { p with stock_quantity := product.stock_quantity + qc }
      else p)).map Product.product_id = s.products.map Product.product_id := by
    rw [List.map_map]
    apply List.map_congr_left
    intro p _
    cases hc : (p.product_id == pid) <;> simp [Function.comp, hc]
  refine ⟨?_, ?_, ?_, ?_, ?_⟩
  · intro p' hp'
    rw [hprod] at hp'
    simp only [List.mem_map] at hp'
    obtain ⟨p, hp, rfl⟩ := hp'
    rw [htxn]
    by_cases hc : p.product_id = pid
    · have hpp : p = product := by
        apply List.inj_on_of_nodup_map hND hp hmem
        rw [hc, hpid]
      have hb : (p.product_id == pid) = true := by simp [hc]
      rw [hb]
      simp only [if_true]
      rw [txnSum_append]
      dsimp only
      have hb2 : (pid == p.product_id) = true := by simp [hc]
      rw [hb2]
      simp only [if_true]
      rw [← hpp, hL p hp]
    · have hb : (p.product_id == pid) = false := by simp [hc]
      rw [hb]
      simp only [Bool.false_eq_true, if_false]
      rw [txnSum_append]
      have hb2 : (pid == p.product_id) = false := by
        simp only [beq_eq_false_iff_ne, ne_eq]
        exact fun hh => hc hh.symm
      rw [hb2]
      simp only [Bool.false_eq_true, if_false, add_zero]
      exact hL p hp
  · intro p' hp'
    rw [hprod] at hp'
    simp only [List.mem_map] at hp'
    obtain ⟨p, hp, rfl⟩ := hp'
    rw [hnpid]
    cases hc : (p.product_id == pid) <;> simp [hc] <;> exact hPB p hp
  · rw [hprod, hidmap]
    exact hND
  · intro tx htx
    rw [htxn] at htx
    rw [hnpid]
    rcases List.mem_append.mp htx with hold | hnew
    · exact hTB tx hold
    · simp only [List.mem_singleton] at hnew
      subst hnew
      rw [← hpid]
      exact hPB product hmem
  · intro it hit
    rw [hoi] at hit
    rw [hnpid]
    exact hOB it hit

lemma create_good {s : State} {nm : String} {price cost : ℚ} {sa : String}
    {q : ℚ} {cat : Nat} {t : State} {newpid : Nat}
    (h : goodState s) (hq0 : 0 ≤ q)
    (hres : createProduct s nm price cost sa q cat = .ok (t, newpid)) :
    goodState t := by
  obtain ⟨hL, hPB, hND, hTB, hOB⟩ := h
  obtain ⟨hprod, hdisj, hoi, hnpid⟩ := createProduct_effects hres
  have hfresh : ∀ tx ∈ s.stockTransactions, tx.product_id ≠ s.nextProductId := by
    intro tx htx
    exact Nat.ne_of_lt (hTB tx htx)
  refine ⟨?_, ?_, ?_, ?_, ?_⟩
  · intro p' hp'
    rw [hprod] at hp'
    rcases List.mem_append.mp hp' with hold | hnew
    · have hplt := hPB p' hold
      rcases hdisj with ⟨-, htxn⟩ | ⟨-, htxn⟩
      · rw [htxn, txnSum_append]
        have hb : ((s.nextProductId == p'.product_id) : Bool) = false := by
          simp only [beq_eq_false_iff_ne, ne_eq]
          exact fun hh => Nat.lt_irrefl _ (hh ▸ hplt)
        rw [hb]
        simp only [Bool.false_eq_true, if_false, add_zero]
        exact hL p' hold
      · rw [htxn]
        exact hL p' hold
    · simp only [List.mem_singleton] at hnew
      subst hnew
      dsimp only
      rcases hdisj with ⟨-, htxn⟩ | ⟨hq, htxn⟩
      · rw [htxn, txnSum_append]
        dsimp only
        rw [txnSum_fresh s.stockTransactions s.nextProductId hfresh]
        simp
      · have hq' : q = 0 := le_antisymm (not_lt.mp hq) hq0
        rw [htxn, txnSum_fresh s.stockTransactions s.nextProductId hfresh, hq']
  · intro p' hp'
    rw [hprod] at hp'
    rw [hnpid]
    rcases List.mem_append.mp hp' with hold | hnew
    · exact Nat.lt_succ_of_lt (hPB p' hold)
    · simp only [List.mem_singleton] at hnew
      subst hnew
      exact Nat.lt_succ_self _
  · rw [hprod]
    simp only [List.map_append, List.map_cons, List.map_nil]
    rw [List.nodup_append]
    refine ⟨hND, List.nodup_singleton _, ?_⟩
    intro a ha hb
    simp only [List.mem_singleton] at hb
    subst hb
    simp only [List.mem_map] at ha
    obtain ⟨p, hp, hpa⟩ := ha
    exact Nat.lt_irrefl _ (hpa ▸ hPB p hp)
  · intro tx htx
    rw [hnpid]
    rcases hdisj with ⟨-, htxn⟩ | ⟨-, htxn⟩
    · rw [htxn] at htx
      rcases List.mem_append.mp htx with hold | hnew
      · exact Nat.lt_succ_of_lt (hTB tx hold)
      · simp only [List.mem_singleton] at hnew
        subst hnew
        exact Nat.lt_succ_self _
    · rw [htxn] at htx
      exact Nat.lt_succ_of_lt (hTB tx htx)
  · intro it hit
    rw [hoi] at hit
    rw [hnpid]
    exact Nat.lt_succ_of_lt (hOB it hit)

end Shop

namespace Shop

lemma step_good (s : State) (op : Op) (h : goodState s) : goodState (step s op) := by
  cases op with
  | place uid gid items ship =>
    simp only [step]
    cases hres : placeOrder s uid gid items ship with
    | error e => exact h
    | ok res =>
      obtain ⟨t, summ⟩ := res
      exact place_good h hres
  | cancel oid uid =>
    simp only [step]
    cases hres : cancelOrder s oid uid with
    | error e => exact h
    | ok res =>
      obtain ⟨t, r⟩ := res
      exact cancel_good h hres
  | adminStatus oid st =>
    simp only [step]
    cases hres : changeOrderStatus s oid st with
    | error e => exact h
    | ok res =>
      obtain ⟨t, pr⟩ := res
      exact admin_good h hres
  | adjust pid qc r =>
    simp only [step]
    cases hres : adjustStock s pid qc r with
    | error e => exact h
    | ok res =>
      obtain ⟨t, info⟩ := res
      exact adjust_good h hres
  | create nm price cost sa q cat =>
    simp only [step]
    cases hres : createProduct s nm price cost sa q.val cat with
    | error e => exact h
    | ok res =>
      obtain ⟨t, newpid⟩ := res
      exact create_good h q.2 hres

lemma goodState_initial : goodState initialState := by
  refine ⟨?_, ?_, ?_, ?_, ?_⟩ <;> simp [initialState, ledgerInv]

lemma applyOps_good (ops : List Op) :
    ∀ s : State, goodState s → goodState (applyOps s ops) := by
  induction ops with
  | nil => intro s h; exact h
  | cons op ops ih =>
    intro s h
    exact ih _ (step_good s op h)

end Shop

namespace Shop

/-- C1: a `placeOrder` call in which some requested item's quantity
exceeds that product's current stock — every earlier item in the batch
resolving to an active product and passing its stock check — fails with
the insufficient-stock error naming the offending product, and the
transaction commits nothing: the resulting state is the caller's state. -/
theorem claim_C1_insufficient_stock_atomic (s : State) (uid gid : Option Nat)
    (pre post : List RequestItem) (it : RequestItem) (ship : Shipping) (p : Product)
    (hcond : ((uid.isSome && gid.isSome) || (uid.isNone && gid.isNone)) = false)
    (hpre : ∀ j ∈ pre, ∃ q, findActiveProduct s j.product_id = some q ∧
      ¬(q.stock_quantity < j.quantity))
    (hit : findActiveProduct s it.product_id = some p)
    (hlow : p.stock_quantity < it.quantity) :
    placeOrder s uid gid (pre ++ it :: post) ship = .error (insufficientMsg p) ∧
    step s (Op.place uid gid (pre ++ it :: post) ship) = s := by
  have hval := validateItems_insufficient s it p post pre hpre hit hlow
  have hne : (pre ++ it :: post).isEmpty = false := by
    cases pre <;> simp
  have hmain : placeOrder s uid gid (pre ++ it :: post) ship = .error (insufficientMsg p) := by
    unfold placeOrder
    rw [hcond, hne, hval]
    simp
  exact ⟨hmain, by simp [step, hmain]⟩

/-- C1 witness: ordering 11 units of the demo product (stock 10) fails
with the insufficient-stock error and leaves the store unchanged. -/
theorem claim_C1_witness :
    placeOrder demoState (some 7) none [{ product_id := 1, quantity := 11 }] demoShip
        = .error (insufficientMsg demoProduct) ∧
    step demoState (Op.place (some 7) none [{ product_id := 1, quantity := 11 }] demoShip)
        = demoState :=
  claim_C1_insufficient_stock_atomic demoState (some 7) none [] []
    { product_id := 1, quantity := 11 } demoShip demoProduct rfl
    (by simp) (by rfl) (by decide)

/-- C2: a successful `placeOrder` computes `total_products_price` as the
sum over validated items of quantity times the product's price at check
time, sets shipping_fees and discount_amount to 0 and final_total to
the products total; it decrements each product's stock by the total
ordered quantity and appends, per item, exactly one purchase
StockTransaction of minus the quantity and one OrderItem carrying the
step-1 price/cost snapshot. -/
theorem claim_C2_place_success_effects (s : State) (uid gid : Option Nat)
    (items : List RequestItem) (ship : Shipping) (vs : List ValidatedItem) (total : ℚ)
    (hcond : ((uid.isSome && gid.isSome) || (uid.isNone && gid.isNone)) = false)
    (hne : items.isEmpty = false)
    (hval : validateItems s items = .ok (vs, total)) :
    (∀ v ∈ vs, ∃ p ∈ s.products, findActiveProduct s v.product_id = some p ∧
       v.price = p.price ∧ v.cost_price = p.cost_price ∧
       v.subtotal = v.quantity * p.price) ∧
    total = (vs.map (fun v => v.subtotal)).sum ∧
    ∃ t : State,
      placeOrder s uid gid items ship
        = .ok (t, { order_id := s.nextOrderId, status := "Created",
                    total_products_price := total, shipping_fees := 0,
                    discount_amount := 0, final_total := total,
                    items_count := vs.length }) ∧
      t.products = s.products.map (fun p =>
        { p with stock_quantity := p.stock_quantity - placedQty vs p.product_id }) ∧
      t.stockTransactions = s.stockTransactions ++ vs.map (fun v =>
        ({ product_id := v.product_id, quantity_change := -v.quantity,
           reason := "purchase", related_order_id := some s.nextOrderId } : StockTransaction)) ∧
      t.orderItems = s.orderItems ++ vs.map (fun v =>
        ({ order_id := s.nextOrderId, product_id := v.product_id, quantity := v.quantity,
           price_at_purchase := v.price, cost_price_at_purchase := v.cost_price } : OrderItem)) := by
  obtain ⟨hsnap, htotal⟩ := validateItems_ok s items vs total hval
  obtain ⟨t, heq, hprod, htxn, hoi, -, -, -, -, -⟩ :=
    placeOrder_ok s uid gid items ship vs total hcond hne hval
  refine ⟨?_, htotal, t, heq, hprod, htxn, hoi⟩
  intro v hv
  obtain ⟨p, hp, hfind, -, hprice, hcost, hsub⟩ := hsnap v hv
  exact ⟨p, hp, hfind, hprice, hcost, hsub⟩

/-- C2 witness: the spec's worked example — ordering 3 units of product
A (stock 10, price 5.00, cost 3.00) yields total 15, final total 15, a
minus-3 purchase StockTransaction and an OrderItem with
price_at_purchase 5 and cost_price_at_purchase 3. -/
theorem claim_C2_witness :
    validateItems demoState [{ product_id := 1, quantity := 3 }]
      = .ok ([{ product_id := 1, name := "A", price := 5, cost_price := 3,
                quantity := 3, subtotal := 15 }], 15) ∧
    ∃ t : State,
      placeOrder demoState (some 7) none [{ product_id := 1, quantity := 3 }] demoShip
        = .ok (t, { order_id := 1, status := "Created",
                    total_products_price := 15, shipping_fees := 0,
                    discount_amount := 0, final_total := 15, items_count := 1 }) ∧
      t.products = [{ demoProduct with stock_quantity := 7 }] ∧
      t.stockTransactions = demoState.stockTransactions ++
        [{ product_id := 1, quantity_change := -3, reason := "purchase",
           related_order_id := some 1 }] ∧
      t.orderItems = [{ order_id := 1, product_id := 1, quantity := 3,
                        price_at_purchase := 5, cost_price_at_purchase := 3 }] := by
  have hval : validateItems demoState [{ product_id := 1, quantity := 3 }]
      = .ok ([{ product_id := 1, name := "A", price := 5, cost_price := 3,
                quantity := 3, subtotal := 15 }], 15) := by
    norm_num [validateItems, findActiveProduct, demoState, demoProduct]
  obtain ⟨-, -, t, heq, hprod, htxn, hoi⟩ :=
    claim_C2_place_success_effects demoState (some 7) none
      [{ product_id := 1, quantity := 3 }] demoShip
      [{ product_id := 1, name := "A", price := 5, cost_price := 3,
         quantity := 3, subtotal := 15 }] 15 rfl rfl hval
  refine ⟨hval, t, heq, ?_, ?_, ?_⟩
  · rw [hprod]
    norm_num [demoState, demoProduct, placedQty]
  · rw [htxn]
    rfl
  · rw [hoi]
    rfl

/-- C3: in every state reachable from the initial store through the
exposed operations (placeOrder, self-service cancel, admin status
change, admin stock adjustment, product creation), every product's
stock_quantity equals the sum of quantity_change over its
StockTransaction rows: the ledger written alongside each stock
mutation reconciles exactly. -/
theorem claim_C3_stock_ledger_reconciliation (ops : List Op) :
    ledgerInv (applyOps initialState ops) :=
  (applyOps_good ops initialState goodState_initial).1

end Shop

namespace Shop

/-- C4: self-service cancellation of a `Created` order owned by the
calling registered user succeeds and, in one transaction, restores
each ordered product's stock by the ordered quantity, appends one
+quantity `cancellation` StockTransaction per item referencing the
order, sets the order's status to Cancelled, sets the order's payment
rows to Cancelled, and appends exactly one history row Created to
Cancelled. -/
theorem claim_C4_cancel_created_effects (s : State) (order_id user_id : Nat) (order : Order)
    (hfind : s.orders.find? (fun o => o.order_id == order_id && o.user_id == some user_id)
      = some order)
    (hst : order.status = "Created") :
    ∃ t : State,
      cancelOrder s order_id user_id = .ok (t, order_id) ∧
      t.products = s.products.map (fun p =>
        { p with stock_quantity := p.stock_quantity
            + restoredQty (s.orderItems.filter (fun it => it.order_id == order_id)) p.product_id }) ∧
      t.stockTransactions = s.stockTransactions ++
        (s.orderItems.filter (fun it => it.order_id == order_id)).map (fun it =>
          ({ product_id := it.product_id, quantity_change := it.quantity,
             reason := "cancellation", related_order_id := some order_id } : StockTransaction)) ∧
      t.orders = s.orders.map (fun o =>
        if o.order_id == order_id then { o with status := "Cancelled" } else o) ∧
      t.payments = setPaymentsStatus s.payments order_id "Cancelled" ∧
      t.statusHistory = s.statusHistory ++
        [({ order_id := order_id, old_status := some "Created",
            new_status := "Cancelled" } : StatusHistory)] := by
  obtain ⟨t, heq, hprod, htxn, hord, hhist, hpay, -, -, -⟩ :=
    cancelOrder_ok s order_id user_id order hfind hst
  exact ⟨t, heq, hprod, htxn, hord, hpay, hhist⟩

/-- C4 witness: cancelling the demo order (3 units of product 1, status
Created, owner user 7) restores stock to 10, logs one +3 cancellation
transaction, marks order and payment Cancelled, and appends the single
Created-to-Cancelled history row. -/
theorem claim_C4_witness :
    ∃ t : State,
      cancelOrder demoCancelState 1 7 = .ok (t, 1) ∧
      t.products = [demoProduct] ∧
      t.stockTransactions = demoCancelState.stockTransactions ++
        [{ product_id := 1, quantity_change := 3, reason := "cancellation",
           related_order_id := some 1 }] ∧
      t.orders = [{ demoOrder with status := "Cancelled" }] ∧
      t.payments = [{ order_id := 1, payment_method := "cash_on_delivery",
                      amount := 15, status := "Cancelled" }] ∧
      t.statusHistory = demoCancelState.statusHistory ++
        [{ order_id := 1, old_status := some "Created", new_status := "Cancelled" }] := by
  obtain ⟨t, heq, hprod, htxn, hord, hpay, hhist⟩ :=
    claim_C4_cancel_created_effects demoCancelState 1 7 demoOrder (by rfl) (by rfl)
  refine ⟨t, heq, ?_, ?_, ?_, ?_, ?_⟩
  · rw [hprod]
    norm_num [demoCancelState, demoProduct, restoredQty]
  · rw [htxn]
    rfl
  · rw [hord]
    rfl
  · rw [hpay]
    rfl
  · rw [hhist]

/-- C5: `changeOrderStatus` accepts only targets in
{Shipped, Delivered, Cancelled} and enforces the transition table: any
request on a Delivered order fails with the invalid-transition error
naming current and target, a direct Created-to-Delivered request fails
likewise, and every such failure rolls back, leaving the state
unchanged. -/
theorem claim_C5_admin_transition_guard (s : State) (oid : Nat) (o : Order)
    (hfind : s.orders.find? (fun x => x.order_id == oid) = some o) :
    (∀ st, validStatuses.contains st = false →
      changeOrderStatus s oid st
          = .error "Invalid status. Admin can only set: Shipped, Delivered, or Cancelled" ∧
      step s (Op.adminStatus oid st) = s) ∧
    (o.status = "Delivered" → ∀ st, validStatuses.contains st = true →
      changeOrderStatus s oid st = .error ("Cannot change status from Delivered to " ++ st) ∧
      step s (Op.adminStatus oid st) = s) ∧
    (o.status = "Created" →
      changeOrderStatus s oid "Delivered"
          = .error "Cannot change status from Created to Delivered" ∧
      step s (Op.adminStatus oid "Delivered") = s) := by
  refine ⟨?_, ?_, ?_⟩
  · intro st hst
    have hmain : changeOrderStatus s oid st
        = .error "Invalid status. Admin can only set: Shipped, Delivered, or Cancelled" := by
      unfold changeOrderStatus
      rw [hst]
      simp
    exact ⟨hmain, by simp [step, hmain]⟩
  · intro hD st hmem
    have hmain : changeOrderStatus s oid st
        = .error ("Cannot change status from Delivered to " ++ st) := by
      unfold changeOrderStatus
      rw [hmem]
      simp only [Bool.not_true, Bool.false_eq_true, if_false]
      rw [hfind]
      dsimp only
      rw [hD, show allowedTransitions "Delivered" = [] from rfl]
      simp only [show (([] : List String).contains st) = false from rfl, Bool.not_false, if_true]
      rw [show "Cannot change status from " ++ "Delivered" ++ " to "
          = "Cannot change status from Delivered to " from rfl]
    exact ⟨hmain, by simp [step, hmain]⟩
  · intro hC
    have hmain : changeOrderStatus s oid "Delivered"
        = .error "Cannot change status from Created to Delivered" := by
      unfold changeOrderStatus
      simp only [show (validStatuses.contains "Delivered") = true from rfl, Bool.not_true,
        Bool.false_eq_true, if_false]
      rw [hfind]
      dsimp only
      rw [hC, show allowedTransitions "Created" = ["Shipped", "Cancelled"] from rfl]
      simp only [show ((["Shipped", "Cancelled"] : List String).contains "Delivered") = false
          from rfl, Bool.not_false, if_true]
      rw [show "Cannot change status from " ++ "Created" ++ " to " ++ "Delivered"
          = "Cannot change status from Created to Delivered" from rfl]
    exact ⟨hmain, by simp [step, hmain]⟩

/-- C5 witness: on a Delivered demo order every admin transition request
(Shipped shown, plus the not-whitelisted target Created) fails and
changes nothing, and on a Created order the direct jump to Delivered
fails and changes nothing. -/
theorem claim_C5_witness :
    (changeOrderStatus demoDeliveredState 1 "Created"
        = .error "Invalid status. Admin can only set: Shipped, Delivered, or Cancelled" ∧
      step demoDeliveredState (Op.adminStatus 1 "Created") = demoDeliveredState) ∧
    (changeOrderStatus demoDeliveredState 1 "Shipped"
        = .error "Cannot change status from Delivered to Shipped" ∧
      step demoDeliveredState (Op.adminStatus 1 "Shipped") = demoDeliveredState) ∧
    (changeOrderStatus demoCancelState 1 "Delivered"
        = .error "Cannot change status from Created to Delivered" ∧
      step demoCancelState (Op.adminStatus 1 "Delivered") = demoCancelState) := by
  refine ⟨?_, ?_, ?_⟩
  · exact (claim_C5_admin_transition_guard demoDeliveredState 1
      { demoOrder with status := "Delivered", delivered_at := true } (by rfl)).1
      "Created" (by decide)
  · exact (claim_C5_admin_transition_guard demoDeliveredState 1
      { demoOrder with status := "Delivered", delivered_at := true } (by rfl)).2.1
      rfl "Shipped" (by decide)
  · exact (claim_C5_admin_transition_guard demoCancelState 1 demoOrder (by rfl)).2.2 rfl

/-- C6: self-service cancellation succeeds only for the owning
registered user on an order whose status is exactly Created: a missing
order or one not owned by the caller yields the order-not-found error,
an owned order in any other status (e.g. Shipped) fails with the
Created-only error, a guest order is never cancellable this way, and
every failure rolls back, leaving the state unchanged. -/
theorem claim_C6_cancel_guards (s : State) (oid uid : Nat) :
    (s.orders.find? (fun o => o.order_id == oid && o.user_id == some uid) = none →
      cancelOrder s oid uid = .error "Order not found" ∧
      step s (Op.cancel oid uid) = s) ∧
    (∀ order, s.orders.find? (fun o => o.order_id == oid && o.user_id == some uid)
        = some order →
      order.status ≠ "Created" →
      cancelOrder s oid uid = .error "Only orders with Created status can be cancelled" ∧
      step s (Op.cancel oid uid) = s) ∧
    ((∀ o ∈ s.orders, o.order_id = oid → o.guest_id.isSome ∧ o.user_id = none) →
      cancelOrder s oid uid = .error "Order not found" ∧
      step s (Op.cancel oid uid) = s) := by
  have guard1 : s.orders.find? (fun o => o.order_id == oid && o.user_id == some uid) = none →
      cancelOrder s oid uid = .error "Order not found" ∧
      step s (Op.cancel oid uid) = s := by
    intro hnone
    have hmain : cancelOrder s oid uid = .error "Order not found" := by
      unfold cancelOrder
      rw [hnone]
    exact ⟨hmain, by simp [step, hmain]⟩
  refine ⟨guard1, ?_, ?_⟩
  · intro order hfind hst
    have hmain : cancelOrder s oid uid
        = .error "Only orders with Created status can be cancelled" := by
      unfold cancelOrder
      rw [hfind]
      dsimp only
      rw [if_pos (by simpa using hst)]
    exact ⟨hmain, by simp [step, hmain]⟩
  · intro hguest
    apply guard1
    rw [List.find?_eq_none]
    intro o ho
    simp only [Bool.and_eq_true, beq_iff_eq, not_and]
    intro hid
    rw [(hguest o ho hid).2]
    simp
  
end Shop

namespace Shop

lemma changeOrderStatus_inv {s : State} {oid : Nat} {st : String} {t : State}
    {pr : String × String} (hres : changeOrderStatus s oid st = .ok (t, pr)) :
    ∃ o, s.orders.find? (fun x => x.order_id == oid) = some o ∧
      (allowedTransitions o.status).contains st = true := by
  unfold changeOrderStatus at hres
  cases hv : (validStatuses.contains st) with
  | false => rw [hv] at hres; simp at hres
  | true =>
    rw [hv] at hres
    simp only [Bool.not_true, Bool.false_eq_true, if_false] at hres
    cases hf : s.orders.find? (fun x => x.order_id == oid) with
    | none => rw [hf] at hres; simp at hres
    | some o =>
      rw [hf] at hres
      dsimp only at hres
      cases ht : ((allowedTransitions o.status).contains st) with
      | false => rw [ht] at hres; simp at hres
      | true => exact ⟨o, rfl, ht⟩

/-- C7: the `payments` table CHECK constraint `payment_status_check`
admits only Pending, Completed, Failed and Refunded, yet cancelling an
order sets that order's payment rows to status Cancelled — a write
that is not admissible under the persisted constraint. Evaluated on
the demo store: the cancellation succeeds in the service layer and
leaves a payment row whose status fails the schema's check. -/
theorem claim_C7_payment_status_check_violation :
    paymentStatusCheck "Cancelled" = false ∧
    (cancelOutcome.map (fun t => t.payments.any (fun pay =>
        pay.status == "Cancelled" && !(paymentStatusCheck pay.status)))) = some true := by
  exact ⟨rfl, rfl⟩

/-- C8: step 1 of placeOrder evaluates each item against the stock read
at check time, not adjusted for earlier items of the same batch: a
batch with two items of one product, each within stock but whose sum
exceeds it, raises no insufficient-stock error at the check stage; the
order goes through and the product's stock ends below zero — the
behaviour the schema's non-negative stock constraint must reconcile. -/
theorem claim_C8_check_time_independent (s : State) (uid : Nat) (ship : Shipping)
    (pid : Nat) (q1 q2 : ℚ) (p : Product)
    (hfind : findActiveProduct s pid = some p)
    (h1 : q1 ≤ p.stock_quantity) (h2 : q2 ≤ p.stock_quantity)
    (hsum : p.stock_quantity < q1 + q2) :
    (validateItems s [{ product_id := pid, quantity := q1 },
                      { product_id := pid, quantity := q2 }]).isOk = true ∧
    ∃ t summ, placeOrder s (some uid) none
        [{ product_id := pid, quantity := q1 },
         { product_id := pid, quantity := q2 }] ship = .ok (t, summ) ∧
      ∃ p' ∈ t.products, p'.product_id = p.product_id ∧ p'.stock_quantity < 0 := by
  have hn1 : ¬(p.stock_quantity < q1) := not_lt.mpr h1
  have hn2 : ¬(p.stock_quantity < q2) := not_lt.mpr h2
  have hval : validateItems s [{ product_id := pid, quantity := q1 },
      { product_id := pid, quantity := q2 }]
      = .ok ([{ product_id := p.product_id, name := p.name, price := p.price,
                cost_price := p.cost_price, quantity := q1, subtotal := q1 * p.price },
              { product_id := p.product_id, name := p.name, price := p.price,
                cost_price := p.cost_price, quantity := q2, subtotal := q2 * p.price }],
             q1 * p.price + (q2 * p.price + 0)) := by
    simp only [validateItems]
    rw [hfind]
    dsimp only
    rw [if_neg hn1, if_neg hn2]
  refine ⟨by rw [hval]; rfl, ?_⟩
  obtain ⟨t, heq, hprod, -, -, -, -, -, -, -⟩ :=
    placeOrder_ok s (some uid) none
      [{ product_id := pid, quantity := q1 }, { product_id := pid, quantity := q2 }]
      ship _ _ rfl rfl hval
  refine ⟨t, _, heq, ?_⟩
  have hmem : p ∈ s.products := findActiveProduct_mem hfind
  rw [hprod]
  refine ⟨_, List.mem_map_of_mem _ hmem, rfl, ?_⟩
  dsimp only
  rw [placedQty_cons, placedQty_cons, placedQty_nil]
  simp only [beq_self_eq_true, if_true]
  linarith

/-- C9: the compensating stock restoration is the same whether a
cancellation is self-service or admin-driven: when both calls succeed
on the same state, the resulting product stocks and stock-transaction
ledgers are identical. -/
theorem claim_C9_cancel_paths_equivalent (s : State) (oid uid : Nat)
    (t1 t2 : State) (r : Nat) (pr : String × String)
    (h1 : cancelOrder s oid uid = .ok (t1, r))
    (h2 : changeOrderStatus s oid "Cancelled" = .ok (t2, pr)) :
    t1.products = t2.products ∧ t1.stockTransactions = t2.stockTransactions := by
  obtain ⟨order, hfind1, hst⟩ := cancelOrder_inv h1
  obtain ⟨t1', heq1, hprod1, htxn1, -, -, -, -, -, -⟩ :=
    cancelOrder_ok s oid uid order hfind1 hst
  rw [h1] at heq1
  simp only [Except.ok.injEq, Prod.mk.injEq] at heq1
  obtain ⟨ht1, -⟩ := heq1
  subst ht1
  obtain ⟨o, hfind2, htrans⟩ := changeOrderStatus_inv h2
  obtain ⟨t2', heq2, hprod2, htxn2, -⟩ := changeOrderStatus_cancel_ok s oid o hfind2 htrans
  rw [h2] at heq2
  simp only [Except.ok.injEq, Prod.mk.injEq] at heq2
  obtain ⟨ht2, -⟩ := heq2
  subst ht2
  rw [hprod1, hprod2, htxn1, htxn2]
  exact ⟨rfl, rfl⟩

/-- C9 witness: on the demo store with one Created order of user 7,
self-service cancellation and the admin transition to Cancelled
produce identical product stocks and identical ledgers. -/
theorem claim_C9_witness :
    ∃ t1 t2 : State, ∃ r : Nat, ∃ pr : String × String,
      cancelOrder demoCancelState 1 7 = .ok (t1, r) ∧
      changeOrderStatus demoCancelState 1 "Cancelled" = .ok (t2, pr) ∧
      t1.products = t2.products ∧ t1.stockTransactions = t2.stockTransactions := by
  obtain ⟨t1, heq1, -, -, -, -, -, -, -, -⟩ :=
    cancelOrder_ok demoCancelState 1 7 demoOrder (by rfl) (by rfl)
  obtain ⟨t2, heq2, -, -, -⟩ :=
    changeOrderStatus_cancel_ok demoCancelState 1 demoOrder (by rfl) (by rfl)
  obtain ⟨hp, ht⟩ := claim_C9_cancel_paths_equivalent demoCancelState 1 7 t1 t2 1
    (demoOrder.status, "Cancelled") heq1 heq2
  exact ⟨t1, t2, 1, (demoOrder.status, "Cancelled"), heq1, heq2, hp, ht⟩

/-- C10: the core placeOrder does not enforce quantity > 0: an item
with non-positive quantity against a product with non-negative stock
passes the availability check, the order is created, and the stock
decrement by the non-positive quantity leaves the stock unchanged or
larger; only the HTTP-layer validator rule (min 0.001) rejects such
quantities. -/
theorem claim_C10_nonpositive_quantity (s : State) (uid : Nat) (ship : Shipping)
    (pid : Nat) (q : ℚ) (p : Product)
    (hq : q ≤ 0)
    (hfind : findActiveProduct s pid = some p)
    (hstock : 0 ≤ p.stock_quantity) :
    quantityRuleOk q = false ∧
    ∃ t summ, placeOrder s (some uid) none [{ product_id := pid, quantity := q }] ship
        = .ok (t, summ) ∧
      ∃ p' ∈ t.products, p'.product_id = p.product_id ∧
        p'.stock_quantity = p.stock_quantity - q ∧
        p.stock_quantity ≤ p'.stock_quantity := by
  have hrule : quantityRuleOk q = false := by
    simp only [quantityRuleOk, decide_eq_false_iff_not, not_le]
    linarith
  have hn : ¬(p.stock_quantity < q) := not_lt.mpr (le_trans hq hstock)
  have hval : validateItems s [{ product_id := pid, quantity := q }]
      = .ok ([{ product_id := p.product_id, name := p.name, price := p.price,
                cost_price := p.cost_price, quantity := q, subtotal := q * p.price }],
             q * p.price + 0) := by
    simp only [validateItems]
    rw [hfind]
    dsimp only
    rw [if_neg hn]
  obtain ⟨t, heq, hprod, -, -, -, -, -, -, -⟩ :=
    placeOrder_ok s (some uid) none [{ product_id := pid, quantity := q }]
      ship _ _ rfl rfl hval
  refine ⟨hrule, t, _, heq, ?_⟩
  have hmem : p ∈ s.products := findActiveProduct_mem hfind
  rw [hprod]
  refine ⟨_, List.mem_map_of_mem _ hmem, rfl, ?_, ?_⟩
  · dsimp only
    rw [placedQty_cons, placedQty_nil]
    simp
  · dsimp only
    rw [placedQty_cons, placedQty_nil]
    simp only [beq_self_eq_true, if_true]
    linarith

end Shop

namespace Shop

/-- C6 witness: on a store holding a Shipped order of user 7 and a
Created guest order, cancelling a missing order id, cancelling the
Shipped order, and cancelling the guest order all fail with the
expected errors and leave the store unchanged. -/
theorem claim_C6_witness :
    (cancelOrder demoShippedGuestState 3 7 = .error "Order not found" ∧
      step demoShippedGuestState (Op.cancel 3 7) = demoShippedGuestState) ∧
    (cancelOrder demoShippedGuestState 1 7
        = .error "Only orders with Created status can be cancelled" ∧
      step demoShippedGuestState (Op.cancel 1 7) = demoShippedGuestState) ∧
    (cancelOrder demoShippedGuestState 2 7 = .error "Order not found" ∧
      step demoShippedGuestState (Op.cancel 2 7) = demoShippedGuestState) := by
  refine ⟨?_, ?_, ?_⟩
  · exact (claim_C6_cancel_guards demoShippedGuestState 3 7).1 (by rfl)
  · exact (claim_C6_cancel_guards demoShippedGuestState 1 7).2.1
      { demoOrder with status := "Shipped" } (by rfl) (by decide)
  · exact (claim_C6_cancel_guards demoShippedGuestState 2 7).2.2 (by decide)

/-- C8 witness: requesting 6 and then 7 units of the demo product
(stock 10) in one batch passes the check stage, the order is placed,
and the product's stock ends negative. -/
theorem claim_C8_witness :
    (validateItems demoState [{ product_id := 1, quantity := 6 },
                              { product_id := 1, quantity := 7 }]).isOk = true ∧
    ∃ t summ, placeOrder demoState (some 7) none
        [{ product_id := 1, quantity := 6 },
         { product_id := 1, quantity := 7 }] demoShip = .ok (t, summ) ∧
      ∃ p' ∈ t.products, p'.product_id = demoProduct.product_id ∧
        p'.stock_quantity < 0 :=
  claim_C8_check_time_independent demoState 7 demoShip 1 6 7 demoProduct
    (by rfl) (by decide) (by decide) (by norm_num [demoProduct])

/-- C10 witness: an item with quantity -2 against the demo product
(stock 10) is rejected by the HTTP validator rule but accepted by the
core workflow, which places the order and raises the stock to 12. -/
theorem claim_C10_witness :
    quantityRuleOk (-2) = false ∧
    ∃ t summ, placeOrder demoState (some 7) none
        [{ product_id := 1, quantity := -2 }] demoShip = .ok (t, summ) ∧
      ∃ p' ∈ t.products, p'.product_id = demoProduct.product_id ∧
        p'.stock_quantity = demoProduct.stock_quantity - (-2) ∧
        demoProduct.stock_quantity ≤ p'.stock_quantity :=
  claim_C10_nonpositive_quantity demoState 7 demoShip 1 (-2) demoProduct
    (by decide) (by rfl) (by decide)

end Shop
